import Mathlib

/-!
Verification of the physical-property correlation framework of
OpenFOAM's thermophysical-models library, against its specification.

The embedding covers:
* the `none` (unconfigured) thermophysical function
  (`noneThermophysicalFunction.C`);
* the `IDEA` liquid-properties descriptor (`IDEA.H`): its fixed binding
  of one correlation family per property slot, its `clone`, and its
  documented blended constants;
* the generic `PropertySet` construction / serialization contract of the
  specification (the concrete construction code, `liquidProperties` and
  the NSRDS correlation bodies, is not part of this source tree; where a
  definition is reconstructed from the specification rather than from
  source code its doc comment says so explicitly).

Scalars are embedded as `ℚ` (coefficients, pressures, temperatures) and
`ℝ` (values of real-power correlation forms); fallible evaluation returns
`Except FoamError`.
-/

set_option autoImplicit false

namespace Foam

/-- Error taxonomy of the framework (spec §7): `undefinedFunction` carries
the owning material's dictionary name; `domainError` signals evaluation
outside the mathematically valid domain (e.g. `T ≥ Tc` for
reduced-temperature forms). -/
inductive FoamError where
  | undefinedFunction (dictName : String)
  | domainError
  deriving DecidableEq, Repr

/-- One token written to an output stream (`Ostream`): a type-name word or
a numeric coefficient. A stream is modelled as the list of tokens written
so far. -/
inductive Token where
  | word (w : String)
  | num (x : ℚ)
  deriving DecidableEq, Repr

/-- The part of a `dictionary` the `none` variant uses: its name
(`dict.name()`). -/
structure Dict where
  name : String
  deriving DecidableEq, Repr

/-- The `none` thermophysical function
(`Foam::thermophysicalFunctions::none`): a placeholder for a property
that was never configured.  Its only state is `dictName_`. -/
structure NoneFunction where
  dictName_ : String
  deriving DecidableEq, Repr

namespace NoneFunction

/-- Constructor `none::none(const dictionary& dict) : dictName_(dict.name())`. -/
def ofDict (dict : Dict) : NoneFunction :=
  ⟨dict.name⟩

/-- `none::f(scalar p, scalar T) const`: raises a fatal error carrying
`dictName_` via `FatalErrorInFunction << ... << dictName_ << ... <<
exit(FatalError)`.  The trailing `return 0` in the C++ is unreachable
because `exit(FatalError)` terminates; evaluation therefore never
produces a value. -/
def f (fn : NoneFunction) (p T : ℚ) : Except FoamError ℚ :=
  Except.error (FoamError.undefinedFunction fn.dictName_)

/-- `none::write(Ostream& os) const {}`: writes nothing, the stream is
unchanged. -/
def write (fn : NoneFunction) (os : List Token) : List Token :=
  os

end NoneFunction

/-- The thirteen correlation slots of a liquid `PropertySet`, exactly the
private data members declared by `IDEA.H`: density, vapour pressure, heat
of vapourisation, heat capacity, enthalpy, ideal-gas heat capacity,
second virial coefficient, liquid viscosity, vapour viscosity, liquid
thermal conductivity, vapour thermal conductivity, surface tension and
vapour diffusivity. -/
inductive Slot where
  | rho | pv | hl | Cp | h | Cpg | B | mu | mug | kappa | kappag | sigma | D
  deriving DecidableEq, Repr, Fintype

/-- The configuration keyword of each slot. -/
def Slot.key : Slot → String
  | .rho => "rho"
  | .pv => "pv"
  | .hl => "hl"
  | .Cp => "Cp"
  | .h => "h"
  | .Cpg => "Cpg"
  | .B => "B"
  | .mu => "mu"
  | .mug => "mug"
  | .kappa => "kappa"
  | .kappag => "kappag"
  | .sigma => "sigma"
  | .D => "D"

/-- All slots, in the declared order of `IDEA.H`. -/
def allSlots : List Slot :=
  [.rho, .pv, .hl, .Cp, .h, .Cpg, .B, .mu, .mug, .kappa, .kappag, .sigma, .D]

/-- A configuration record (spec §6): a dictionary name together with a
mapping from slot keyword to a type name and an ordered coefficient
list. -/
structure Config where
  name : String
  entries : List (String × String × List ℚ)
  deriving DecidableEq, Repr

/-- First entry of a configuration whose keyword is `k`. -/
def findEntry (k : String) :
    List (String × String × List ℚ) → Option (String × List ℚ)
  | [] => Option.none
  | (k', t, cs) :: rest => if k' = k then some (t, cs) else findEntry k rest

/-- One bound correlation slot: either a configured correlation (type name
plus ordered coefficients) or the `none` variant holding only the owning
dictionary's name. -/
inductive SlotBinding where
  | configured (typeName : String) (coeffs : List ℚ)
  | noneSlot (dictName : String)
  deriving DecidableEq, Repr

/-- Serialization of one slot: a configured slot emits its type name first
and then its coefficients in declared order (spec §6); a slot bound to the
`none` variant emits nothing, from `none::write(Ostream&) const {}`. -/
def SlotBinding.write : SlotBinding → List Token
  | .configured t cs => Token.word t :: cs.map Token.num
  | .noneSlot _ => []

/-- Evaluation of one slot, parametric in the family evaluator `F`
(the correlation bodies are external to this source tree): a configured
slot forwards to `F`, while a `none` slot fails with `undefinedFunction`
carrying the stored dictionary name, from `none::f`. -/
def SlotBinding.eval {V : Type} (F : String → List ℚ → ℚ → ℚ → Except FoamError V) :
    SlotBinding → ℚ → ℚ → Except FoamError V
  | .configured t cs, p, T => F t cs p T
  | .noneSlot n, _, _ => Except.error (FoamError.undefinedFunction n)

/-- A material's property set: its name and one binding per slot. -/
@[ext] structure PropertySet where
  name : String
  slots : Slot → SlotBinding

/-- Modelled from the spec (§4.2, the construction code of
`liquidProperties` is not part of this source tree): construction reads,
for each slot, a type name and coefficient list from the configuration;
missing slots default to the `none` variant, which stores the
dictionary's name (`none::none(const dictionary& dict) :
dictName_(dict.name())`). Construction is a total function — it never
fails, however many slots are unconfigured. -/
def PropertySet.create (cfg : Config) : PropertySet where
  name := cfg.name
  slots s :=
    match findEntry s.key cfg.entries with
    | some (t, cs) => SlotBinding.configured t cs
    | Option.none => SlotBinding.noneSlot cfg.name

/-- The configuration row written back for one slot: configured slots
emit their keyword, type name and coefficients; `none` slots emit
nothing (`none::write`). -/
def writeRow (ps : PropertySet) (s : Slot) : Option (String × String × List ℚ) :=
  match ps.slots s with
  | SlotBinding.configured t cs => some (s.key, t, cs)
  | SlotBinding.noneSlot _ => Option.none

/-- Modelled from the spec (§4.2, §6; `IDEA::write` is declared in
`IDEA.H` but implemented outside this source tree): write-back serializes
every configured slot in declared order in the same configuration shape,
and writes nothing for `none` slots. -/
def PropertySet.write (ps : PropertySet) : Config where
  name := ps.name
  entries := allSlots.filterMap (writeRow ps)

theorem Slot.key_injective : Function.Injective Slot.key := by
  decide

theorem findEntry_filterMap_of_not_mem (ps : PropertySet) (l : List Slot)
    (s : Slot) (h : s ∉ l) :
    findEntry s.key (l.filterMap (writeRow ps)) = Option.none := by
  induction l with
  | nil => rfl
  | cons a rest ih =>
    have has : a ≠ s := fun he => h (he ▸ List.mem_cons_self a rest)
    have hs : s ∉ rest := fun hm => h (List.mem_cons_of_mem a hm)
    have hkey : ¬ a.key = s.key := fun he => has (Slot.key_injective he)
    cases hsl : ps.slots a with
    | configured t cs =>
        simp [List.filterMap_cons, writeRow, hsl, findEntry, hkey, ih hs]
    | noneSlot n =>
        simp [List.filterMap_cons, writeRow, hsl, ih hs]

theorem findEntry_filterMap_of_mem (ps : PropertySet) (l : List Slot)
    (s : Slot) (hmem : s ∈ l) (hnd : l.Nodup) :
    findEntry s.key (l.filterMap (writeRow ps)) =
      match ps.slots s with
      | SlotBinding.configured t cs => some (t, cs)
      | SlotBinding.noneSlot _ => Option.none := by
  induction l with
  | nil => cases hmem
  | cons a rest ih =>
    rcases List.nodup_cons.mp hnd with ⟨hna, hndr⟩
    rcases List.mem_cons.mp hmem with he | hm
    · subst he
      cases hsl : ps.slots s with
      | configured t cs =>
          simp [List.filterMap_cons, writeRow, hsl, findEntry]
      | noneSlot n =>
          simp only [List.filterMap_cons, writeRow, hsl]
          exact findEntry_filterMap_of_not_mem ps rest s hna
    · have has : ¬ a = s := fun he => hna (he ▸ hm)
      have hkey : ¬ a.key = s.key := fun he => has (Slot.key_injective he)
      cases hsl : ps.slots a with
      | configured t cs =>
          simp only [List.filterMap_cons, writeRow, hsl, findEntry, hkey,
            if_false]
          exact ih hm hndr
      | noneSlot n =>
          simp only [List.filterMap_cons, writeRow, hsl]
          exact ih hm hndr

theorem PropertySet.slots_create (cfg : Config) (s : Slot) :
    (PropertySet.create cfg).slots s =
      match findEntry s.key cfg.entries with
      | some (t, cs) => SlotBinding.configured t cs
      | Option.none => SlotBinding.noneSlot cfg.name :=
  rfl

theorem PropertySet.write_entries (ps : PropertySet) :
    (PropertySet.write ps).entries = allSlots.filterMap (writeRow ps) :=
  rfl

theorem findEntry_filterMap_configured (ps : PropertySet) (l : List Slot)
    (s : Slot) (hmem : s ∈ l) (hnd : l.Nodup) (t : String) (cs : List ℚ)
    (h : ps.slots s = SlotBinding.configured t cs) :
    findEntry s.key (l.filterMap (writeRow ps)) = some (t, cs) := by
  have hfe := findEntry_filterMap_of_mem ps l s hmem hnd
  rw [h] at hfe
  exact hfe

theorem findEntry_filterMap_noneSlot (ps : PropertySet) (l : List Slot)
    (s : Slot) (hmem : s ∈ l) (hnd : l.Nodup) (n : String)
    (h : ps.slots s = SlotBinding.noneSlot n) :
    findEntry s.key (l.filterMap (writeRow ps)) = Option.none := by
  have hfe := findEntry_filterMap_of_mem ps l s hmem hnd
  rw [h] at hfe
  exact hfe

theorem create_write_create (cfg : Config) :
    PropertySet.create (PropertySet.write (PropertySet.create cfg)) =
      PropertySet.create cfg := by
  apply PropertySet.ext
  · rfl
  · funext s
    have hmem : s ∈ allSlots := by cases s <;> decide
    have hnd : allSlots.Nodup := by decide
    cases hc : findEntry s.key cfg.entries with
    | none =>
        have hsl : (PropertySet.create cfg).slots s
            = SlotBinding.noneSlot cfg.name := by
          rw [PropertySet.slots_create, hc]
        have hfe := findEntry_filterMap_noneSlot (PropertySet.create cfg)
          allSlots s hmem hnd cfg.name hsl
        rw [PropertySet.slots_create
            (PropertySet.write (PropertySet.create cfg)) s,
          PropertySet.write_entries, hfe, hsl]
        rfl
    | some tc =>
        have hsl : (PropertySet.create cfg).slots s
            = SlotBinding.configured tc.1 tc.2 := by
          rw [PropertySet.slots_create, hc]
        have hfe := findEntry_filterMap_configured (PropertySet.create cfg)
          allSlots s hmem hnd tc.1 tc.2 hsl
        rw [PropertySet.slots_create
            (PropertySet.write (PropertySet.create cfg)) s,
          PropertySet.write_entries, hfe, hsl]

/-- C1: evaluating the `none` (unconfigured) slot via `f(p, T)` fails with
`UndefinedFunction` for every pressure and temperature, the error carries
the owning material's dictionary name, and `f` never returns a value
normally. -/
theorem none_f_always_undefinedFunction (dict : Dict) (p T : ℚ) :
    (NoneFunction.ofDict dict).f p T
        = Except.error (FoamError.undefinedFunction dict.name) ∧
      ∀ v : ℚ, (NoneFunction.ofDict dict).f p T ≠ Except.ok v := by
  refine ⟨rfl, ?_⟩
  intro v h
  exact Except.noConfusion h

/-- C2 counterexample: in the PropertySet created from an empty
configuration named "IDEA", the density slot is bound to the `none`
variant, and its write-back emits no tokens at all — in particular it
does not emit a type name first, contradicting the claim that write
emits each slot's type name and coefficients including for slots bound
to the `none` variant. -/
theorem noneSlot_write_no_typeName :
    ((PropertySet.create ⟨"IDEA", []⟩).slots Slot.rho).write
        = ([] : List Token) ∧
      ¬ ∃ (t : String) (rest : List Token),
        ((PropertySet.create ⟨"IDEA", []⟩).slots Slot.rho).write
          = Token.word t :: rest := by
  constructor
  · rfl
  · rintro ⟨t, rest, hcontra⟩
    simp [PropertySet.create, findEntry, SlotBinding.write] at hcontra

/-- C2 (amended): `write` followed by re-`create` from the written record
yields the original PropertySet exactly, so every slot — including every
slot bound to the `none` variant — evaluates identically to the
original for every (p, T) and every family evaluator; configured slots
are serialized as their type name first followed by their coefficients
in original declared order, while `none` slots emit nothing and are
restored by the missing-slot default. -/
theorem propertySet_roundtrip_lossless (cfg : Config) :
    PropertySet.create (PropertySet.write (PropertySet.create cfg)) =
        PropertySet.create cfg ∧
      (∀ (V : Type) (F : String → List ℚ → ℚ → ℚ → Except FoamError V)
          (s : Slot) (p T : ℚ),
        SlotBinding.eval F
            ((PropertySet.create
              (PropertySet.write (PropertySet.create cfg))).slots s) p T =
          SlotBinding.eval F ((PropertySet.create cfg).slots s) p T) ∧
      ∀ (t : String) (cs : List ℚ),
        (SlotBinding.configured t cs).write
          = Token.word t :: cs.map Token.num := by
  refine ⟨create_write_create cfg, ?_, fun t cs => rfl⟩
  intro V F s p T
  rw [create_write_create cfg]

/-- C6: construction of a PropertySet is total — it never fails because
some slots are unconfigured.  Every missing slot is bound to the `none`
variant at construction, storing only the dictionary name for
diagnostics, and evaluating such a slot fails with `undefinedFunction`;
every configured slot remains bound to its type name and coefficients
and forwards evaluation to its correlation. -/
theorem create_never_fails_missing_slots_none (cfg : Config) (s : Slot) :
    (findEntry s.key cfg.entries = Option.none →
      (PropertySet.create cfg).slots s = SlotBinding.noneSlot cfg.name ∧
      ∀ (V : Type) (F : String → List ℚ → ℚ → ℚ → Except FoamError V)
        (p T : ℚ),
        SlotBinding.eval F ((PropertySet.create cfg).slots s) p T =
          Except.error (FoamError.undefinedFunction cfg.name)) ∧
    ∀ (t : String) (cs : List ℚ),
      findEntry s.key cfg.entries = some (t, cs) →
      (PropertySet.create cfg).slots s = SlotBinding.configured t cs ∧
      ∀ (V : Type) (F : String → List ℚ → ℚ → ℚ → Except FoamError V)
        (p T : ℚ),
        SlotBinding.eval F ((PropertySet.create cfg).slots s) p T
          = F t cs p T := by
  constructor
  · intro hmiss
    have hsl : (PropertySet.create cfg).slots s
        = SlotBinding.noneSlot cfg.name := by
      rw [PropertySet.slots_create, hmiss]
    exact ⟨hsl, fun V F p T => by rw [hsl]; rfl⟩
  · intro t cs hhit
    have hsl : (PropertySet.create cfg).slots s
        = SlotBinding.configured t cs := by
      rw [PropertySet.slots_create, hhit]
    exact ⟨hsl, fun V F p T => by rw [hsl]; rfl⟩

/-- A sample configuration: only the density slot is configured. -/
def sampleConfig : Config :=
  ⟨"water", [("rho", "NSRDS5", [1, 2, 3])]⟩

/-- A family evaluator that always succeeds, for witnessing. -/
def constOkEval : String → List ℚ → ℚ → ℚ → Except FoamError ℚ :=
  fun _ _ _ _ => Except.ok 0

theorem create_never_fails_missing_slots_none_witness :
    (PropertySet.create sampleConfig).slots Slot.mu
        = SlotBinding.noneSlot "water" ∧
      SlotBinding.eval constOkEval
          ((PropertySet.create sampleConfig).slots Slot.mu) 101325 300 =
        Except.error (FoamError.undefinedFunction "water") ∧
      (PropertySet.create sampleConfig).slots Slot.rho
        = SlotBinding.configured "NSRDS5" [1, 2, 3] ∧
      SlotBinding.eval constOkEval
          ((PropertySet.create sampleConfig).slots Slot.rho) 101325 300 =
        Except.ok 0 :=
  ⟨((create_never_fails_missing_slots_none sampleConfig Slot.mu).1
      (by decide)).1,
    ((create_never_fails_missing_slots_none sampleConfig Slot.mu).1
      (by decide)).2 ℚ constOkEval 101325 300,
    ((create_never_fails_missing_slots_none sampleConfig Slot.rho).2
      "NSRDS5" [1, 2, 3] (by decide)).1,
    ((create_never_fails_missing_slots_none sampleConfig Slot.rho).2
      "NSRDS5" [1, 2, 3] (by decide)).2 ℚ constOkEval 101325 300⟩

/-- C8: `none::write` emits nothing — for every output stream it leaves
the stream's content unchanged, writing neither a type name nor
coefficients. -/
theorem none_write_emits_nothing (fn : NoneFunction) (os : List Token) :
    fn.write os = os := by
  rfl

/-- The correlation families of the framework's registry that `IDEA.H`
includes: the NSRDS equation forms and the API diffusion-coefficient
form. -/
inductive Family where
  | NSRDS0 | NSRDS1 | NSRDS2 | NSRDS3 | NSRDS4 | NSRDS5 | NSRDS6 | NSRDS7
  | APIdiffCoef
  deriving DecidableEq, Repr

/-- A thermophysical function of a given family: its ordered coefficient
vector.  The formula bodies live outside this source tree; the family tag
is carried in the type, mirroring the statically typed C++ members. -/
structure TPF (fam : Family) where
  coeffs : List ℚ
  deriving DecidableEq, Repr

/-- The `IDEA` fuel descriptor: its thirteen private correlation members,
with exactly the member types declared in `IDEA.H` (`rho_` is an
`NSRDS5`, `pv_` an `NSRDS1`, `hl_` an `NSRDS6`, and so on). -/
structure IDEA where
  rho_ : TPF Family.NSRDS5
  pv_ : TPF Family.NSRDS1
  hl_ : TPF Family.NSRDS6
  Cp_ : TPF Family.NSRDS0
  h_ : TPF Family.NSRDS0
  Cpg_ : TPF Family.NSRDS7
  B_ : TPF Family.NSRDS4
  mu_ : TPF Family.NSRDS1
  mug_ : TPF Family.NSRDS2
  kappa_ : TPF Family.NSRDS0
  kappag_ : TPF Family.NSRDS2
  sigma_ : TPF Family.NSRDS6
  D_ : TPF Family.APIdiffCoef
  deriving DecidableEq, Repr

/-- The correlation member an `IDEA` object binds to each property slot,
together with its family, exactly as the accessors of `IDEA.H` forward
(`rho` to `rho_`, `pv` to `pv_`, ...). -/
def IDEA.slotFunction (x : IDEA) : Slot → Σ fam : Family, TPF fam
  | .rho => ⟨Family.NSRDS5, x.rho_⟩
  | .pv => ⟨Family.NSRDS1, x.pv_⟩
  | .hl => ⟨Family.NSRDS6, x.hl_⟩
  | .Cp => ⟨Family.NSRDS0, x.Cp_⟩
  | .h => ⟨Family.NSRDS0, x.h_⟩
  | .Cpg => ⟨Family.NSRDS7, x.Cpg_⟩
  | .B => ⟨Family.NSRDS4, x.B_⟩
  | .mu => ⟨Family.NSRDS1, x.mu_⟩
  | .mug => ⟨Family.NSRDS2, x.mug_⟩
  | .kappa => ⟨Family.NSRDS0, x.kappa_⟩
  | .kappag => ⟨Family.NSRDS2, x.kappag_⟩
  | .sigma => ⟨Family.NSRDS6, x.sigma_⟩
  | .D => ⟨Family.APIdiffCoef, x.D_⟩

/-- The family the claim expects each `IDEA` slot to be bound to. -/
def ideaSlotFamily : Slot → Family
  | .rho => Family.NSRDS5
  | .pv => Family.NSRDS1
  | .hl => Family.NSRDS6
  | .Cp => Family.NSRDS0
  | .h => Family.NSRDS0
  | .Cpg => Family.NSRDS7
  | .B => Family.NSRDS4
  | .mu => Family.NSRDS1
  | .mug => Family.NSRDS2
  | .kappa => Family.NSRDS0
  | .kappag => Family.NSRDS2
  | .sigma => Family.NSRDS6
  | .D => Family.APIdiffCoef

/-- One call to a property accessor of an `IDEA` object, parametric in
the family evaluator `F`: the accessor is a `const` member function, so
the call returns the scalar result together with the unchanged object. -/
def IDEA.evalAccessor {V : Type}
    (F : (fam : Family) → TPF fam → ℚ → ℚ → Except FoamError V)
    (x : IDEA) (s : Slot) (p T : ℚ) : Except FoamError V × IDEA :=
  (F (x.slotFunction s).1 (x.slotFunction s).2 p T, x)

/-- `IDEA::clone() const`: `new IDEA(*this)` — a copy of the object. -/
def IDEA.clone (x : IDEA) : IDEA :=
  x

/-- The clone operation observed with the state of the original: it
returns the copy together with the original after the (const) call. -/
def IDEA.cloneOp (x : IDEA) : IDEA × IDEA :=
  (IDEA.clone x, x)

/-- C9: every `IDEA` instance binds the same correlation family to each
property slot regardless of its coefficients: density NSRDS5, vapour
pressure and liquid viscosity NSRDS1, heat of vapourisation and surface
tension NSRDS6, heat capacity, enthalpy and thermal conductivity NSRDS0,
ideal-gas heat capacity NSRDS7, second virial coefficient NSRDS4, vapour
viscosity and vapour thermal conductivity NSRDS2, and vapour diffusivity
APIdiffCoef. -/
theorem idea_slot_families_fixed (x : IDEA) (s : Slot) :
    (x.slotFunction s).1 = ideaSlotFamily s := by
  cases s <;> rfl

/-- C7: every evaluation is deterministic and mutation-free: a property
accessor called twice on the same `IDEA` object — the second call on the
object state left by the first — returns the same result, the object
after a call is the object before it, and the `none` variant's `f`
likewise returns the same error on repeated calls. -/
theorem eval_deterministic_no_mutation {V : Type}
    (F : (fam : Family) → TPF fam → ℚ → ℚ → Except FoamError V)
    (x : IDEA) (s : Slot) (p T : ℚ) (fn : NoneFunction) :
    IDEA.evalAccessor F x s p T
        = IDEA.evalAccessor F (IDEA.evalAccessor F x s p T).2 s p T ∧
      (IDEA.evalAccessor F x s p T).2 = x ∧
      fn.f p T = fn.f p T := by
  exact ⟨rfl, rfl, rfl⟩

/-- C10: `IDEA::clone` returns a copy whose every property accessor
evaluates identically to the original for every (p, T) and every family
evaluator, and cloning leaves the original unchanged. -/
theorem clone_evaluates_identically {V : Type}
    (F : (fam : Family) → TPF fam → ℚ → ℚ → Except FoamError V)
    (x : IDEA) (s : Slot) (p T : ℚ) :
    (IDEA.cloneOp x).2 = x ∧
      (IDEA.evalAccessor F (IDEA.cloneOp x).1 s p T).1
        = (IDEA.evalAccessor F x s p T).1 := by
  exact ⟨rfl, rfl⟩

/-- An NSRDS equation 6 function: critical temperature and coefficients
a–e.  `IDEA.H` binds this family to the heat-of-vapourisation (`hl_`)
and surface-tension (`sigma_`) slots. -/
structure NSRDS6fun where
  Tc : ℚ
  a : ℚ
  b : ℚ
  c : ℚ
  d : ℚ
  e : ℚ
  deriving DecidableEq, Repr

/-- The NSRDS6 value at reduced temperature `Tr = T/Tc`:
`a·(1 − Tr)^(((e·Tr + d)·Tr + c)·Tr + b)`. -/
noncomputable def NSRDS6fun.value (fn : NSRDS6fun) (T : ℚ) : ℝ :=
  (fn.a : ℝ) *
    (1 - (T : ℝ) / (fn.Tc : ℝ)) ^
      ((((fn.e : ℝ) * ((T : ℝ) / (fn.Tc : ℝ)) + (fn.d : ℝ))
            * ((T : ℝ) / (fn.Tc : ℝ)) + (fn.c : ℝ))
          * ((T : ℝ) / (fn.Tc : ℝ)) + (fn.b : ℝ))

/-- Modelled from the spec (§4.1, §8; the NSRDS6 implementation file is
not part of this source tree): the reduced-temperature correlation family
becomes undefined at or above the critical temperature and must fail with
`DomainError` there rather than silently returning NaN or 0; below `Tc`
it evaluates the reduced-temperature power form. -/
noncomputable def NSRDS6fun.f (fn : NSRDS6fun) (p T : ℚ) : Except FoamError ℝ :=
  if T < fn.Tc then Except.ok (fn.value T)
  else Except.error FoamError.domainError

/-- C5: evaluating a reduced-temperature-form slot (NSRDS6, as bound by
IDEA to heat of vapourisation and surface tension) at `T = Tc` or
`T > Tc` fails with `DomainError` — not NaN, not 0 — while at `T`
strictly below `Tc` (for positive `Tc` and a non-negative leading
coefficient, as for physically non-negative properties) it succeeds with
a finite, non-negative real value. -/
theorem nsrds6_reduced_temperature_domain (fn : NSRDS6fun) (p T : ℚ) :
    (fn.Tc ≤ T → fn.f p T = Except.error FoamError.domainError) ∧
      (0 < fn.Tc → T < fn.Tc → 0 ≤ fn.a →
        ∃ v : ℝ, fn.f p T = Except.ok v ∧ 0 ≤ v) := by
  constructor
  · intro hge
    rw [NSRDS6fun.f, if_neg (not_lt.mpr hge)]
  · intro hTc hlt ha
    refine ⟨fn.value T, by rw [NSRDS6fun.f, if_pos hlt], ?_⟩
    rw [NSRDS6fun.value]
    apply mul_nonneg
    · exact_mod_cast ha
    · apply le_of_lt
      apply Real.rpow_pos_of_pos
      have h1 : (T : ℝ) / (fn.Tc : ℝ) < 1 := by
        rw [div_lt_one (by exact_mod_cast hTc)]
        exact_mod_cast hlt
      linarith

/-- A sample NSRDS6 function with the IDEA critical temperature. -/
def nsrds6Sample : NSRDS6fun :=
  ⟨618074 / 1000, 1, 2 / 5, 0, 0, 0⟩

theorem nsrds6_reduced_temperature_domain_witness :
    NSRDS6fun.f nsrds6Sample 101325 700
        = Except.error FoamError.domainError ∧
      ∃ v : ℝ, NSRDS6fun.f nsrds6Sample 101325 300 = Except.ok v ∧ 0 ≤ v :=
  ⟨(nsrds6_reduced_temperature_domain nsrds6Sample 101325 700).1
      (by norm_num [nsrds6Sample]),
    (nsrds6_reduced_temperature_domain nsrds6Sample 101325 300).2
      (by norm_num [nsrds6Sample]) (by norm_num [nsrds6Sample])
      (by norm_num [nsrds6Sample])⟩

/-- Modelled from the spec: the `IDEA.H` header documents that the IDEA
critical temperature was taken to be 618.074 K because this is the
'c'-value of the fitted density (rho) equation, which corresponds to
`Tcrit`; the numeric constants themselves live in `IDEA.C`, outside this
source tree. -/
def IDEA_rhoEqn_c : ℚ := 618.074

/-- The IDEA critical temperature: the density-equation 'c'-value. -/
def IDEA_Tc : ℚ := IDEA_rhoEqn_c

/-- Modelled from the spec: n-decane's critical temperature, the upper
end of its documented validity range (617.70 K). -/
def nDecane_Tc : ℚ := 617.70

/-- Modelled from the spec: alpha-methyl-naphthalene's critical
temperature, the upper end of its documented validity range (772.04 K). -/
def aMethylNaphthalene_Tc : ℚ := 772.04

/-- Modelled from the spec: the documented component molecular weights
142.20 (naphthalene) and 142.285 (n-decane). -/
def aMethylNaphthalene_W : ℚ := 142.20

def nDecane_W : ℚ := 142.285

/-- The IDEA molecular weight, documented as 142.26, approximately
`0.3·142.20 + 0.7·142.285`. -/
def IDEA_W : ℚ := 142.26

/-- Modelled from the spec: the critical volume, "also the lowest one
(naphthalene) 0.523 m^3/kmol". -/
def aMethylNaphthalene_Vc : ℚ := 0.523

/-- The IDEA critical volume: the naphthalene value, the lower one. -/
def IDEA_Vc : ℚ := aMethylNaphthalene_Vc

/-- Modelled from the spec: "Critical pressure was set to the lowest one
(n-Decane)" — the IDEA critical pressure is the n-decane value, as a
function of that component value (its number lives in `IDEA.C`, outside
this source tree). -/
def IDEA_Pc (PcDecane : ℚ) : ℚ := PcDecane

/-- The IDEA blend fraction: 30% naphthalene. -/
def blendFraction : ℚ := 3 / 10

/-- The 0.3/0.7 weighted average of two component values. -/
def weightedAverage (yA yB : ℚ) : ℚ :=
  blendFraction * yA + (1 - blendFraction) * yB

/-- C3 counterexample: the IDEA critical temperature, 618.074 K, is
neither the 0.3/0.7 weighted average of the component critical
temperatures (664.002 K) nor the more conservative, lower of the two
(617.70 K): it is the 'c'-value of the fitted density equation.  The
claim's per-scalar rule therefore fails for the critical temperature. -/
theorem idea_Tc_neither_average_nor_lower :
    IDEA_Tc ≠ weightedAverage aMethylNaphthalene_Tc nDecane_Tc ∧
      IDEA_Tc ≠ min aMethylNaphthalene_Tc nDecane_Tc ∧
      IDEA_Tc ≠ nDecane_Tc ∧ IDEA_Tc ≠ aMethylNaphthalene_Tc := by
  refine ⟨?_, ?_, ?_, ?_⟩ <;>
    norm_num [IDEA_Tc, IDEA_rhoEqn_c, weightedAverage, blendFraction,
      aMethylNaphthalene_Tc, nDecane_Tc, min_def]

/-- C3 (amended): the non-correlation constants of the IDEA mixture are
blended per scalar as follows — the molecular weight is within 5·10⁻⁴ of
the 0.3/0.7 weighted average (stored rounded as 142.26); the critical
pressure and critical volume take the lower of the two component values;
the critical temperature is not blended at all but taken from the fitted
density equation's 'c'-value, 618.074 K, which is neither the weighted
average nor the lower component value. -/
theorem idea_constants_blending (VcDecane PcDecane PcNaphthalene : ℚ)
    (hVc : aMethylNaphthalene_Vc ≤ VcDecane)
    (hPc : PcDecane ≤ PcNaphthalene) :
    |IDEA_W - weightedAverage aMethylNaphthalene_W nDecane_W| ≤ 1 / 2000 ∧
      IDEA_Tc = IDEA_rhoEqn_c ∧
      IDEA_Tc ≠ weightedAverage aMethylNaphthalene_Tc nDecane_Tc ∧
      IDEA_Tc ≠ min aMethylNaphthalene_Tc nDecane_Tc ∧
      IDEA_Vc = min aMethylNaphthalene_Vc VcDecane ∧
      IDEA_Pc PcDecane = min PcDecane PcNaphthalene := by
  refine ⟨?_, rfl, ?_, ?_,
    (min_eq_left hVc).symm, (min_eq_left hPc).symm⟩
  · rw [abs_le]
    constructor <;>
      norm_num [IDEA_W, weightedAverage, blendFraction,
        aMethylNaphthalene_W, nDecane_W]
  · norm_num [IDEA_Tc, IDEA_rhoEqn_c, weightedAverage, blendFraction,
      aMethylNaphthalene_Tc, nDecane_Tc]
  · norm_num [IDEA_Tc, IDEA_rhoEqn_c, aMethylNaphthalene_Tc, nDecane_Tc,
      min_def]

theorem idea_constants_blending_witness :
    aMethylNaphthalene_Vc ≤ (3 / 5 : ℚ) ∧ (2110000 : ℚ) ≤ 5000000 ∧
      IDEA_Vc = min aMethylNaphthalene_Vc (3 / 5 : ℚ) ∧
      IDEA_Pc 2110000 = min (2110000 : ℚ) 5000000 :=
  ⟨by norm_num [aMethylNaphthalene_Vc], by norm_num,
    (idea_constants_blending (3 / 5) 2110000 5000000
        (by norm_num [aMethylNaphthalene_Vc]) (by norm_num)).2.2.2.2.1,
    (idea_constants_blending (3 / 5) 2110000 5000000
        (by norm_num [aMethylNaphthalene_Vc]) (by norm_num)).2.2.2.2.2⟩

end Foam
